import Mathlib

/-!
Shallow embedding of `src/app.py` (Streamlit Instagram scraper front-end).

External effects are modelled as explicit oracles:
* the remote spreadsheet is an oracle `fetchAt : Nat → List Nat` giving, for each
  point in (discrete, second-granularity) time, the list of rows that a fresh
  remote read performed at that time would yield *after* `get_sheet_data`'s own
  error fallback (a failed read yields `[]`, see `get_sheet_data_once`);
* the webhook is an oracle `http : String → Nat → HttpResult` giving the HTTP
  outcome of POSTing a given username / post count;
* Streamlit's `st.cache_data(ttl=60)` memoisation is an explicit cache value
  `Option (Nat × List Nat)` holding the fetch time and the fetched rows;
* wall-clock time advances only through the poller's `time.sleep(5)`.
-/

namespace InstagramScraper

/-! ## Python string helpers (`str.strip`, `str.replace`, `str.split`) -/

/-- Python `str.isspace` characters relevant to `str.strip()` (ASCII whitespace). -/
def isPySpace (c : Char) : Bool :=
  c = ' ' || c = '\t' || c = '\n' || c = '\r' || c = '\x0b' || c = '\x0c'

/-- Python `u.strip()`: drop whitespace from both ends. -/
def pyStrip (s : List Char) : List Char :=
  ((s.dropWhile isPySpace).reverse.dropWhile isPySpace).reverse

/-- Fuel-driven worker for `removeAll`.  Scans left to right; whenever the
pattern is a prefix of the remaining input it is dropped (non-overlapping,
left-to-right, exactly Python's `str.replace(pat, "")` for a non-empty `pat`).
The fuel only makes the recursion structural; `removeAll` supplies enough fuel
(one unit per input character) for it never to run out. -/
def removeAllAux (pat : List Char) : Nat → List Char → List Char
  | 0, s => s
  | _ + 1, [] => []
  | fuel + 1, c :: rest =>
    if pat.isPrefixOf (c :: rest) && !pat.isEmpty then
      removeAllAux pat fuel ((c :: rest).drop pat.length)
    else
      c :: removeAllAux pat fuel rest

/-- Python `s.replace(pat, "")` for the character-list view of `s`. -/
def removeAll (pat s : List Char) : List Char :=
  removeAllAux pat s.length s

/-- Python `raw.split("\n")`: split at every newline, keeping empty pieces. -/
def splitLines : List Char → List (List Char)
  | [] => [[]]
  | c :: rest =>
    match splitLines rest with
    | [] => [[]]
    | l :: ls => if c = '\n' then [] :: l :: ls else (c :: l) :: ls

/-! ## Username normalisation (src/app.py lines 174-177)

`u.strip().replace('@', '').replace('instagram.com/', '')` applied to every
line of the text area whose stripped form is non-empty. -/

/-- The normalisation expression of the list comprehension, on character lists. -/
def normalizeChars (u : List Char) : List Char :=
  removeAll "instagram.com/".toList (removeAll ['@'] (pyStrip u))

/-- `u.strip().replace('@', '').replace('instagram.com/', '')` on strings. -/
def normalize_username (u : String) : String :=
  (normalizeChars u.toList).asString

/-- The parsed username list (src/app.py lines 174-177): split the raw text
area on newlines, keep lines whose `strip()` is non-empty, normalise each. -/
def usernames_list (raw : String) : List String :=
  ((splitLines raw.toList).filter (fun u => !(pyStrip u).isEmpty)).map
    (fun u => (normalizeChars u).asString)

/-! ## Data store client (src/app.py lines 49-58) -/

/-- The body of `get_sheet_data` without the cache: the remote read either
yields rows (`Except.ok`) or raises (`Except.error e`); the `try/except`
turns any exception into an empty table plus a user-visible `st.error`
message.  The function is total: no exception propagates to the caller. -/
def get_sheet_data_once (remote : Except String (List Nat)) :
    List Nat × Option String :=
  match remote with
  | Except.ok rows => (rows, none)
  | Except.error e => ([], some ("Error al obtener datos: " ++ e))

/-- `@st.cache_data(ttl=60)` around `get_sheet_data`, as explicit state.
`c` is the memo (fetch time and value); a call at time `t` returns the cached
value if it is younger than 60 seconds, otherwise performs a remote round
trip (`fetchAt t`, already including the error fallback of
`get_sheet_data_once`) and re-fills the cache.  Result: the returned rows,
the new cache state, and the number of remote round trips (0 or 1). -/
def get_sheet_data (fetchAt : Nat → List Nat) (t : Nat)
    (c : Option (Nat × List Nat)) :
    List Nat × Option (Nat × List Nat) × Nat :=
  match c with
  | some (t0, v) =>
    if t - t0 < 60 then (v, some (t0, v), 0)
    else (fetchAt t, some (t, fetchAt t), 1)
  | none => (fetchAt t, some (t, fetchAt t), 1)

/-! ## Dispatch client (src/app.py lines 60-85) -/

/-- Outcome of the single `requests.post` inside `send_to_n8n`: either a
response (status code and body text), a `requests.exceptions.Timeout`, or any
other exception with its description. -/
inductive HttpResult where
  | response (status : Nat) (text : String)
  | timeout
  | transportError (msg : String)
deriving DecidableEq

/-- `send_to_n8n` after the POST: `(response.status_code == 200, response.text)`
on a response, and the two `except` branches for timeout and other errors. -/
def send_to_n8n (r : HttpResult) : Bool × String :=
  match r with
  | HttpResult.response status text => (status == 200, text)
  | HttpResult.timeout => (false, "Timeout - El scraping puede estar en proceso")
  | HttpResult.transportError e => (false, "Error: " ++ e)

/-! ## Completion poller (src/app.py lines 87-111)

`wait_for_new_data(initial_count, usernames_count, max_wait_time=300)`:
```
start_time = time.time()
while time.time() - start_time < max_wait_time:
    get_sheet_data.clear()
    current_df = get_sheet_data()          # fresh fetch
    if len(current_df) > initial_count:
        return True, current_df
    time.sleep(5)
return False, get_sheet_data()             # served from the cache
```
Time is discrete: the loop body is instantaneous and only `time.sleep(5)`
advances the clock, so the fresh fetches happen at elapsed times 0, 5, 10, …
The fuel argument (one unit per loop iteration, `max_wait_time` units is
always enough because each iteration advances the clock by 5) makes the
recursion structural; the loop itself is bounded by the wall clock, and the
fuel-exhausted branch coincides with the normal wall-clock exit.
Returns `(completed, rows, elapsed-time-at-return)`. -/
def waitLoopT (fetchAt : Nat → List Nat) (initial_count max_wait_time : Nat) :
    Nat → Nat → Option (Nat × List Nat) → Bool × List Nat × Nat
  | 0, elapsed, c => (false, (get_sheet_data fetchAt elapsed c).1, elapsed)
  | fuel + 1, elapsed, c =>
    if elapsed < max_wait_time then
      if initial_count < (fetchAt elapsed).length then
        (true, fetchAt elapsed, elapsed)
      else
        waitLoopT fetchAt initial_count max_wait_time fuel (elapsed + 5)
          (some (elapsed, fetchAt elapsed))
    else (false, (get_sheet_data fetchAt elapsed c).1, elapsed)

/-- `wait_for_new_data` itself: run the loop from elapsed time 0 with the
cache in state `c0` (the state left by the caller's last `get_sheet_data`).
The `usernames_count` parameter is accepted and unused, exactly as in the
source. -/
def wait_for_new_data (fetchAt : Nat → List Nat) (c0 : Option (Nat × List Nat))
    (initial_count usernames_count max_wait_time : Nat) :
    Bool × List Nat × Nat :=
  waitLoopT fetchAt initial_count max_wait_time max_wait_time 0 c0

/-! ## The scrape button handler (src/app.py lines 172-221) -/

/-- Streamlit session state touched by the handler. -/
structure SessionState where
  scraping_completed : Bool
  last_scraped_data : Option (List Nat)
  scraping_in_progress : Bool
deriving DecidableEq

/-- Observable outcome of one press of the scrape button: the dispatch calls
made (username and post count, in call order), the validation / slow-scrape
warnings shown, the accumulated `errores` list, whether `wait_for_new_data`
was invoked (and its result), and the final session state. -/
structure ScrapeResult where
  dispatchCalls : List (String × Nat)
  warnings : List String
  errores : List String
  pollerInvoked : Bool
  pollResult : Option (Bool × List Nat)
  state : SessionState
deriving DecidableEq

/-- One iteration of the `for user in usernames_list:` loop (lines 196-199):
call `send_to_n8n`, record the call, and append to `errores` on failure. -/
def dispatch_step (http : String → Nat → HttpResult) (num_posts : Nat)
    (acc : List (String × Nat) × List String) (user : String) :
    List (String × Nat) × List String :=
  (acc.1 ++ [(user, num_posts)],
   if (send_to_n8n (http user num_posts)).1 then acc.2
   else acc.2 ++ ["@" ++ user ++ ": " ++ (send_to_n8n (http user num_posts)).2])

/-- The whole dispatch loop: every username is sent in order, failures only
extend `errores` and never stop the loop. -/
def dispatch_loop (http : String → Nat → HttpResult) (num_posts : Nat)
    (users : List String) : List (String × Nat) × List String :=
  users.foldl (dispatch_step http num_posts) ([], [])

def warn_empty : String := "⚠️ Por favor ingresa al menos un username."

def warn_too_many : String :=
  "⚠️ Has ingresado más de 5 usernames. Reduce la lista a un máximo de 5."

def warn_slow : String :=
  "⚠️ El scraping puede estar tomando más tiempo del esperado. Los datos aparecerán cuando esté listo."

/-- Lines 207-221: the success branch after dispatch reported no errors.
Wait for new rows; on growth mark the scrape completed and store the final
snapshot, otherwise warn that the scrape is slow and leave the data alone. -/
def scrape_wait_phase (fetchAt : Nat → List Nat) (c : Option (Nat × List Nat))
    (initial_count ucount : Nat) (calls : List (String × Nat))
    (s1 : SessionState) : ScrapeResult :=
  if (wait_for_new_data fetchAt c initial_count ucount 300).1 then
    { dispatchCalls := calls, warnings := [], errores := [], pollerInvoked := true,
      pollResult := some ((wait_for_new_data fetchAt c initial_count ucount 300).1,
        (wait_for_new_data fetchAt c initial_count ucount 300).2.1),
      state := { s1 with
        scraping_completed := true,
        last_scraped_data := some (wait_for_new_data fetchAt c initial_count ucount 300).2.1,
        scraping_in_progress := false } }
  else
    { dispatchCalls := calls, warnings := [warn_slow], errores := [], pollerInvoked := true,
      pollResult := some ((wait_for_new_data fetchAt c initial_count ucount 300).1,
        (wait_for_new_data fetchAt c initial_count ucount 300).2.1),
      state := { s1 with scraping_in_progress := false } }

/-- Lines 184-221: the validated branch.  Mark the scrape in progress and not
completed, take the baseline row count through the cache, run the dispatch
loop; if any dispatch failed (`if errores:`) report the errors and stop
without polling, otherwise enter the wait phase. -/
def scrape_dispatch_phase (fetchAt : Nat → List Nat)
    (http : String → Nat → HttpResult) (c0 : Option (Nat × List Nat))
    (users : List String) (num_posts : Nat) (s0 : SessionState) : ScrapeResult :=
  if ((dispatch_loop http num_posts users).2).isEmpty then
    scrape_wait_phase fetchAt (get_sheet_data fetchAt 0 c0).2.1
      (get_sheet_data fetchAt 0 c0).1.length users.length
      (dispatch_loop http num_posts users).1
      { s0 with scraping_in_progress := true, scraping_completed := false }
  else
    { dispatchCalls := (dispatch_loop http num_posts users).1,
      warnings := [],
      errores := (dispatch_loop http num_posts users).2,
      pollerInvoked := false,
      pollResult := none,
      state := { s0 with scraping_in_progress := false, scraping_completed := false } }

/-- Lines 172-221: the full handler for a press of the scrape button.
Parse the text area into `usernames_list`; an empty list or more than five
entries only produces a validation warning and touches nothing else;
otherwise run dispatch and (absent errors) the completion poller. -/
def scrape_handler (fetchAt : Nat → List Nat) (http : String → Nat → HttpResult)
    (c0 : Option (Nat × List Nat)) (raw_usernames : String) (num_posts : Nat)
    (s0 : SessionState) : ScrapeResult :=
  if (usernames_list raw_usernames).isEmpty then
    { dispatchCalls := [], warnings := [warn_empty], errores := [],
      pollerInvoked := false, pollResult := none, state := s0 }
  else if 5 < (usernames_list raw_usernames).length then
    { dispatchCalls := [], warnings := [warn_too_many], errores := [],
      pollerInvoked := false, pollResult := none, state := s0 }
  else
    scrape_dispatch_phase fetchAt http c0 (usernames_list raw_usernames)
      num_posts s0

/-- Lines 230-252: the data section renders the scraped table (and offers the
CSV download) only when the last scrape completed and stored data. -/
def shows_data (s : SessionState) : Bool :=
  s.scraping_completed && s.last_scraped_data.isSome

/-! ## Poller lemmas -/

/-- Once the wall clock has reached the budget, the loop exits immediately
with the (typically cached) `get_sheet_data()` value, whatever fuel is left. -/
theorem waitLoopT_exit (fetchAt : Nat → List Nat) (ic mw : Nat)
    (fuel elapsed : Nat) (c : Option (Nat × List Nat)) (h : mw ≤ elapsed) :
    waitLoopT fetchAt ic mw fuel elapsed c =
      (false, (get_sheet_data fetchAt elapsed c).1, elapsed) := by
  cases fuel with
  | zero => rfl
  | succ n => simp only [waitLoopT]; rw [if_neg (by omega)]

/-- If poll `k` is the first one (from iteration `i` on) whose fresh snapshot
exceeds the baseline, and it happens before the budget, the loop returns
`(true, that snapshot)` at time `5 * k`. -/
theorem waitLoopT_success (fetchAt : Nat → List Nat) (ic mw : Nat) :
    ∀ (fuel i : Nat) (c : Option (Nat × List Nat)) (k : Nat), i ≤ k →
      5 * k < mw → ic < (fetchAt (5 * k)).length →
      (∀ j, i ≤ j → j < k → (fetchAt (5 * j)).length ≤ ic) →
      mw ≤ 5 * i + 5 * fuel →
      waitLoopT fetchAt ic mw fuel (5 * i) c = (true, fetchAt (5 * k), 5 * k) := by
  intro fuel
  induction fuel with
  | zero => intro i c k hik hkm _ _ hfuel; omega
  | succ n ih =>
    intro i c k hik hkm hgood hbefore hfuel
    have hi : 5 * i < mw := by omega
    simp only [waitLoopT]
    rw [if_pos hi]
    rcases Nat.lt_or_ge i k with hlt | hge
    · have hle : (fetchAt (5 * i)).length ≤ ic := hbefore i le_rfl hlt
      rw [if_neg (by omega)]
      have h5 : 5 * i + 5 = 5 * (i + 1) := by ring
      rw [h5]
      exact ih (i + 1) _ k (by omega) hkm hgood
        (fun j hj1 hj2 => hbefore j (by omega) hj2) (by omega)
    · have hik' : i = k := le_antisymm hik hge
      subst hik'
      rw [if_pos hgood]

/-- If no poll from iteration `i` on (within the budget) sees growth, the loop
times out: it returns `(false, v)` where `v` is the snapshot of the final
poll, served from the cache, at time one interval past that final poll. -/
theorem waitLoopT_timeout (fetchAt : Nat → List Nat) (ic mw : Nat) :
    ∀ (fuel i : Nat) (c : Option (Nat × List Nat)), 5 * i < mw →
      (∀ j, i ≤ j → 5 * j < mw → (fetchAt (5 * j)).length ≤ ic) →
      mw ≤ 5 * i + 5 * fuel →
      waitLoopT fetchAt ic mw fuel (5 * i) c =
        (false, fetchAt (5 * ((mw - 1) / 5)), 5 * ((mw - 1) / 5) + 5) := by
  intro fuel
  induction fuel with
  | zero => intro i c h1 _ hfuel; omega
  | succ n ih =>
    intro i c h1 hall hfuel
    simp only [waitLoopT]
    rw [if_pos h1, if_neg (by exact Nat.not_lt.mpr (hall i le_rfl h1))]
    have h5 : 5 * i + 5 = 5 * (i + 1) := by ring
    rw [h5]
    rcases Nat.lt_or_ge (5 * (i + 1)) mw with h2 | h2
    · exact ih (i + 1) _ h2 (fun j hj hjm => hall j (by omega) hjm) (by omega)
    · have hm : (mw - 1) / 5 = i := by omega
      rw [waitLoopT_exit fetchAt ic mw n (5 * (i + 1)) _ h2]
      have hc : get_sheet_data fetchAt (5 * (i + 1)) (some (5 * i, fetchAt (5 * i)))
          = (fetchAt (5 * i), some (5 * i, fetchAt (5 * i)), 0) := by
        simp only [get_sheet_data]
        rw [if_pos (by omega)]
      rw [hc, hm, h5]

/-- The loop's return time never reaches `max_wait_time + 5`. -/
theorem waitLoopT_time_bound (fetchAt : Nat → List Nat) (ic mw : Nat) :
    ∀ (fuel elapsed : Nat) (c : Option (Nat × List Nat)), elapsed < mw + 5 →
      (waitLoopT fetchAt ic mw fuel elapsed c).2.2 < mw + 5 := by
  intro fuel
  induction fuel with
  | zero => intro elapsed c h; simpa [waitLoopT] using h
  | succ n ih =>
    intro elapsed c h
    simp only [waitLoopT]
    by_cases h1 : elapsed < mw
    · rw [if_pos h1]
      by_cases h2 : ic < (fetchAt elapsed).length
      · rw [if_pos h2]; simpa using h
      · rw [if_neg h2]; exact ih (elapsed + 5) _ (by omega)
    · rw [if_neg h1]; simpa using h

/-! ## Claim C1 -/

/-- C1: for every baseline `b ≥ 0` (all of `Nat`) and timeout `t > 0`,
`wait_for_new_data` polls the store freshly at elapsed times 0, 5, 10, …;
if poll `k` is the first whose snapshot has more than `b` rows, it returns
`(true, that snapshot)` at once — at time `5 * k`, with no further waiting;
and if no poll within the budget sees growth, it returns `(false, v)` where
`v` is the last fetched snapshot (the poll at time `5 * ((t - 1) / 5)`, the
greatest poll time below `t`, served back from the cache). -/
theorem wait_for_new_data_growth_and_timeout (fetchAt : Nat → List Nat)
    (c0 : Option (Nat × List Nat)) (b uc t : Nat) (ht : 0 < t) :
    (∀ k, 5 * k < t → b < (fetchAt (5 * k)).length →
      (∀ j, j < k → (fetchAt (5 * j)).length ≤ b) →
      wait_for_new_data fetchAt c0 b uc t = (true, fetchAt (5 * k), 5 * k)) ∧
    ((∀ k, 5 * k < t → (fetchAt (5 * k)).length ≤ b) →
      wait_for_new_data fetchAt c0 b uc t =
        (false, fetchAt (5 * ((t - 1) / 5)), 5 * ((t - 1) / 5) + 5)) := by
  constructor
  · intro k hk hgood hbefore
    have h := waitLoopT_success fetchAt b t t 0 c0 k (Nat.zero_le k) hk hgood
      (fun j _ hj => hbefore j hj) (by omega)
    simpa [wait_for_new_data] using h
  · intro hall
    have h := waitLoopT_timeout fetchAt b t t 0 c0 (by omega)
      (fun j _ hj => hall j hj) (by omega)
    simpa [wait_for_new_data] using h

/-- Witness for C1: with one row appearing at the very first poll against
baseline 0 and timeout 7, the poller returns `(true, [1])` at time 0. -/
theorem wait_for_new_data_growth_and_timeout_witness :
    0 < 7 ∧ wait_for_new_data (fun _ => [1]) none 0 1 7 = (true, [1], 0) := by
  refine ⟨by omega, ?_⟩
  have h := (wait_for_new_data_growth_and_timeout (fun _ => [1]) none 0 1 7
    (by omega)).1 0 (by omega) (by simp) (fun j hj => absurd hj (Nat.not_lt_zero j))
  simpa using h

/-! ## Claim C2 -/

/-- The remote store of the C2 scenario: 10 rows before `t = 15` seconds,
11 rows from `t = 15` on. -/
def scenario_fetch (t : Nat) : List Nat :=
  if t < 15 then List.range 10 else List.range 11

/-- C2 counterexample: with baseline 10 and timeout 15 the poller does NOT
return `(true, <11-row snapshot>)` at `t = 15`: the loop guard
`time.time() - start_time < max_wait_time` fails at elapsed time 15, so the
poll that would have seen the 11th row never happens. -/
theorem scenario_t15_counterexample :
    wait_for_new_data scenario_fetch none 10 1 15 ≠
      (true, List.range 11, 15) := by decide

/-- C2 amended: in that scenario the poller fetches at t = 0, 5 and 10 only
(each seeing 10 rows), and at t = 15 it times out, returning `(false, the
cached 10-row snapshot)` at t = 15. -/
theorem scenario_t15_actual :
    wait_for_new_data scenario_fetch none 10 1 15 =
      (false, List.range 10, 15) := by decide

/-! ## Claim C9 -/

/-- C9: the poller always terminates (it is a total function of the model),
and its return time is bounded by the wall clock: strictly below
`max_wait_time` plus one 5-second poll interval, for every baseline and
every oracle. -/
theorem wait_for_new_data_terminates_bounded (fetchAt : Nat → List Nat)
    (c0 : Option (Nat × List Nat)) (b uc t : Nat) (ht : 0 < t) :
    (wait_for_new_data fetchAt c0 b uc t).2.2 < t + 5 :=
  waitLoopT_time_bound fetchAt b t t 0 c0 (by omega)

/-- Witness for C9 at timeout 1: the poller returns by time 5. -/
theorem wait_for_new_data_terminates_bounded_witness :
    0 < 1 ∧ (wait_for_new_data (fun _ => []) none 0 1 1).2.2 < 1 + 5 :=
  ⟨by omega, wait_for_new_data_terminates_bounded (fun _ => []) none 0 1 1 (by omega)⟩

/-! ## Dispatch-loop lemmas -/

/-- The dispatch loop records exactly one call per username, in list order,
whatever the webhook answers. -/
theorem dispatch_foldl_fst (http : String → Nat → HttpResult) (p : Nat) :
    ∀ (users : List String) (acc : List (String × Nat) × List String),
      (users.foldl (dispatch_step http p) acc).1 =
        acc.1 ++ users.map (fun u => (u, p)) := by
  intro users
  induction users with
  | nil => intro acc; simp
  | cons u us ih =>
    intro acc
    rw [List.foldl_cons, ih]
    simp [dispatch_step]

/-- The `errores` list accumulated by the loop is one entry per failed
username, in list order. -/
theorem dispatch_foldl_snd (http : String → Nat → HttpResult) (p : Nat) :
    ∀ (users : List String) (acc : List (String × Nat) × List String),
      (users.foldl (dispatch_step http p) acc).2 =
        acc.2 ++ (users.filter (fun u => !(send_to_n8n (http u p)).1)).map
          (fun u => "@" ++ u ++ ": " ++ (send_to_n8n (http u p)).2) := by
  intro users
  induction users with
  | nil => intro acc; simp
  | cons u us ih =>
    intro acc
    rw [List.foldl_cons, ih]
    cases hok : (send_to_n8n (http u p)).1 <;>
      simp [dispatch_step, hok, List.filter_cons]

theorem dispatch_loop_fst (http : String → Nat → HttpResult) (p : Nat)
    (users : List String) :
    (dispatch_loop http p users).1 = users.map (fun u => (u, p)) := by
  rw [dispatch_loop, dispatch_foldl_fst]
  simp

theorem dispatch_loop_snd (http : String → Nat → HttpResult) (p : Nat)
    (users : List String) :
    (dispatch_loop http p users).2 =
      (users.filter (fun u => !(send_to_n8n (http u p)).1)).map
        (fun u => "@" ++ u ++ ": " ++ (send_to_n8n (http u p)).2) := by
  rw [dispatch_loop, dispatch_foldl_snd]
  simp

/-- If some username's dispatch failed, `errores` is non-empty. -/
theorem dispatch_loop_snd_ne_nil (http : String → Nat → HttpResult) (p : Nat)
    (users : List String) (u : String) (hu : u ∈ users)
    (hf : (send_to_n8n (http u p)).1 = false) :
    (dispatch_loop http p users).2 ≠ [] := by
  rw [dispatch_loop_snd]
  intro hnil
  rcases List.map_eq_nil_iff.mp hnil with hfil
  have hmem : u ∈ users.filter (fun v => !(send_to_n8n (http v p)).1) :=
    List.mem_filter.mpr ⟨hu, by simp [hf]⟩
  rw [hfil] at hmem
  exact absurd hmem (List.not_mem_nil u)

/-! ## Handler projection lemmas -/

theorem scrape_wait_phase_calls (fetchAt : Nat → List Nat)
    (c : Option (Nat × List Nat)) (ic uc : Nat) (calls : List (String × Nat))
    (s1 : SessionState) :
    (scrape_wait_phase fetchAt c ic uc calls s1).dispatchCalls = calls := by
  unfold scrape_wait_phase
  split <;> rfl

theorem scrape_dispatch_phase_calls (fetchAt : Nat → List Nat)
    (http : String → Nat → HttpResult) (c0 : Option (Nat × List Nat))
    (users : List String) (p : Nat) (s0 : SessionState) :
    (scrape_dispatch_phase fetchAt http c0 users p s0).dispatchCalls =
      (dispatch_loop http p users).1 := by
  unfold scrape_dispatch_phase
  split
  · rw [scrape_wait_phase_calls]
  · rfl

/-! ## Claim C3 -/

/-- C3 counterexample: the normalisation of src/app.py line 175 does strip
whitespace and `@` from `"  @cristiano "`, but it only deletes the literal
substring `instagram.com/` from `"https://instagram.com/natgeo"`, leaving
the scheme: the result is `"https://natgeo"`, not `"natgeo"`, so the claimed
pair of normalisations is false. -/
theorem normalize_url_counterexample :
    ¬ (normalize_username "  @cristiano " = "cristiano" ∧
       normalize_username "https://instagram.com/natgeo" = "natgeo") := by
  decide

/-- C3 amended: `"  @cristiano "` normalises to `"cristiano"`, and
`"https://instagram.com/natgeo"` normalises to `"https://natgeo"` (the
`https://` prefix survives because only the substring `instagram.com/` is
removed). -/
theorem normalize_examples :
    normalize_username "  @cristiano " = "cristiano" ∧
    normalize_username "https://instagram.com/natgeo" = "https://natgeo" := by
  decide

/-! ## Claim C4 -/

/-- C4: whenever the parsed list has between 1 and 5 usernames, the handler
invokes the dispatch client exactly once per username, in input order —
whatever the webhook oracle answers, so one failure never prevents the
later dispatches. -/
theorem dispatch_once_per_username_in_order (fetchAt : Nat → List Nat)
    (http : String → Nat → HttpResult) (c0 : Option (Nat × List Nat))
    (raw : String) (posts : Nat) (s0 : SessionState)
    (h1 : 1 ≤ (usernames_list raw).length)
    (h2 : (usernames_list raw).length ≤ 5) :
    (scrape_handler fetchAt http c0 raw posts s0).dispatchCalls =
      (usernames_list raw).map (fun u => (u, posts)) := by
  have hne : (usernames_list raw).isEmpty = false := by
    cases hu : usernames_list raw with
    | nil => rw [hu] at h1; simp at h1
    | cons a l => simp
  unfold scrape_handler
  rw [if_neg (by simp [hne]), if_neg (by omega)]
  rw [scrape_dispatch_phase_calls, dispatch_loop_fst]

/-- Witness for C4: two usernames, a webhook that always times out — both
dispatches are still attempted, in order. -/
theorem dispatch_once_per_username_in_order_witness :
    1 ≤ (usernames_list "cristiano\nnatgeo").length ∧
    (usernames_list "cristiano\nnatgeo").length ≤ 5 ∧
    (scrape_handler (fun _ => [1]) (fun _ _ => HttpResult.timeout) none
        "cristiano\nnatgeo" 3 (SessionState.mk false none false)).dispatchCalls =
      (usernames_list "cristiano\nnatgeo").map (fun u => (u, 3)) :=
  ⟨by decide, by decide,
    dispatch_once_per_username_in_order (fun _ => [1]) (fun _ _ => HttpResult.timeout)
      none "cristiano\nnatgeo" 3 (SessionState.mk false none false)
      (by decide) (by decide)⟩

/-! ## Claim C5 -/

/-- C5: a submission parsing to zero usernames, or to more than five, makes
no dispatch call, produces a validation warning, and never reaches the
poller. -/
theorem validation_blocks_dispatch (fetchAt : Nat → List Nat)
    (http : String → Nat → HttpResult) (c0 : Option (Nat × List Nat))
    (raw : String) (posts : Nat) (s0 : SessionState)
    (h : usernames_list raw = [] ∨ 5 < (usernames_list raw).length) :
    (scrape_handler fetchAt http c0 raw posts s0).dispatchCalls = [] ∧
    (scrape_handler fetchAt http c0 raw posts s0).warnings ≠ [] ∧
    (scrape_handler fetchAt http c0 raw posts s0).pollerInvoked = false := by
  rcases h with h | h
  · unfold scrape_handler
    rw [if_pos (by simp [h])]
    exact ⟨rfl, by simp, rfl⟩
  · have hne : (usernames_list raw).isEmpty = false := by
      cases hu : usernames_list raw with
      | nil => rw [hu] at h; simp at h
      | cons a l => simp
    unfold scrape_handler
    rw [if_neg (by simp [hne]), if_pos h]
    exact ⟨rfl, by simp, rfl⟩

/-- Witness for C5: the empty text area dispatches nothing and warns. -/
theorem validation_blocks_dispatch_witness :
    (usernames_list "" = [] ∨ 5 < (usernames_list "").length) ∧
    ((scrape_handler (fun _ => []) (fun _ _ => HttpResult.timeout) none "" 1
        (SessionState.mk false none false)).dispatchCalls = [] ∧
      (scrape_handler (fun _ => []) (fun _ _ => HttpResult.timeout) none "" 1
        (SessionState.mk false none false)).warnings ≠ [] ∧
      (scrape_handler (fun _ => []) (fun _ _ => HttpResult.timeout) none "" 1
        (SessionState.mk false none false)).pollerInvoked = false) :=
  ⟨Or.inl (by decide),
    validation_blocks_dispatch (fun _ => []) (fun _ _ => HttpResult.timeout) none "" 1
      (SessionState.mk false none false) (Or.inl (by decide))⟩

/-! ## Claim C6 -/

/-- C6: two `get_sheet_data` calls inside one 60-second time-to-live window
of the cache, with no intervening `clear` (the first call starts from the
invalidated cache and opens the window), perform at most one remote round
trip between them and both return the same cached value. -/
theorem cache_single_round_trip (fetchAt : Nat → List Nat) (t1 t2 : Nat)
    (h1 : t1 ≤ t2) (h2 : t2 < t1 + 60) :
    (get_sheet_data fetchAt t2 (get_sheet_data fetchAt t1 none).2.1).1 =
      (get_sheet_data fetchAt t1 none).1 ∧
    (get_sheet_data fetchAt t1 none).2.2 +
      (get_sheet_data fetchAt t2 (get_sheet_data fetchAt t1 none).2.1).2.2 ≤ 1 := by
  simp only [get_sheet_data]
  rw [if_pos (by omega)]
  exact ⟨rfl, Nat.le_refl 1⟩

/-- Witness for C6 at times 0 and 30. -/
theorem cache_single_round_trip_witness :
    (0 : Nat) ≤ 30 ∧
    ((get_sheet_data (fun _ => [1]) 30 (get_sheet_data (fun _ => [1]) 0 none).2.1).1 =
        (get_sheet_data (fun _ => [1]) 0 none).1 ∧
      (get_sheet_data (fun _ => [1]) 0 none).2.2 +
        (get_sheet_data (fun _ => [1]) 30
          (get_sheet_data (fun _ => [1]) 0 none).2.1).2.2 ≤ 1) :=
  ⟨by omega, cache_single_round_trip (fun _ => [1]) 0 30 (by omega) (by omega)⟩

/-! ## Claim C7 -/

/-- C7: a dispatch is `ok` exactly when the HTTP status is 200; any other
status (403 included) yields `(false, the raw response body)`, a timeout
yields the timeout-specific message, and a transport error yields the
exception description — three distinct shapes, never conflated. -/
theorem send_to_n8n_status_mapping :
    (∀ (status : Nat) (text : String),
      ((send_to_n8n (HttpResult.response status text)).1 = true ↔ status = 200) ∧
      send_to_n8n (HttpResult.response status text) = (status == 200, text)) ∧
    (∀ text : String, send_to_n8n (HttpResult.response 403 text) = (false, text)) ∧
    send_to_n8n HttpResult.timeout =
      (false, "Timeout - El scraping puede estar en proceso") ∧
    (∀ e : String, send_to_n8n (HttpResult.transportError e) =
      (false, "Error: " ++ e)) := by
  refine ⟨fun status text => ⟨?_, rfl⟩, fun text => rfl, rfl, fun e => rfl⟩
  simp [send_to_n8n]

/-! ## Claim C8 -/

/-- C8: `get_sheet_data`'s body is total — a remote failure is caught, not
re-raised — and on any failure it returns the empty table together with a
user-visible error message. -/
theorem get_sheet_data_error_fallback (e : String) :
    get_sheet_data_once (Except.error e) =
      ([], some ("Error al obtener datos: " ++ e)) := rfl

/-! ## Claim C10 -/

/-- C10 counterexample: with a previous successful scrape in the session
(`scraping_completed = true`) and a submission whose single dispatch fails,
the handler resets `scraping_completed` to `false` (line 187 runs before
dispatch), so the field is NOT left unchanged as claimed. -/
theorem error_branch_counterexample :
    (∃ u ∈ usernames_list "cristiano",
      (send_to_n8n (HttpResult.timeout)).1 = false) ∧
    (SessionState.mk true (some [1]) false).scraping_completed = true ∧
    (scrape_handler (fun _ => []) (fun _ _ => HttpResult.timeout) none "cristiano" 1
      (SessionState.mk true (some [1]) false)).state.scraping_completed = false := by
  decide

/-- C10 amended: when at least one dispatch fails (and the list validated),
the poller is never invoked, `last_scraped_data` is left unchanged, and
`scraping_completed` — rather than being left unchanged — is `false` (it was
unconditionally reset before dispatch); consequently the data section shows
nothing from this submission. -/
theorem error_branch_behavior (fetchAt : Nat → List Nat)
    (http : String → Nat → HttpResult) (c0 : Option (Nat × List Nat))
    (raw : String) (posts : Nat) (s0 : SessionState)
    (h1 : usernames_list raw ≠ []) (h2 : (usernames_list raw).length ≤ 5)
    (hfail : ∃ u ∈ usernames_list raw, (send_to_n8n (http u posts)).1 = false) :
    (scrape_handler fetchAt http c0 raw posts s0).pollerInvoked = false ∧
    (scrape_handler fetchAt http c0 raw posts s0).state.last_scraped_data =
      s0.last_scraped_data ∧
    (scrape_handler fetchAt http c0 raw posts s0).state.scraping_completed = false ∧
    shows_data (scrape_handler fetchAt http c0 raw posts s0).state = false := by
  obtain ⟨u, hu, hf⟩ := hfail
  have herr := dispatch_loop_snd_ne_nil http posts _ u hu hf
  have hne : (usernames_list raw).isEmpty = false := by
    cases hq : usernames_list raw with
    | nil => exact absurd hq h1
    | cons a l => simp
  unfold scrape_handler
  rw [if_neg (by simp [hne]), if_neg (by omega)]
  unfold scrape_dispatch_phase
  rw [if_neg (by simpa [List.isEmpty_iff] using herr)]
  exact ⟨rfl, rfl, rfl, by simp [shows_data]⟩

/-- Witness for the amended C10: a failing single-user submission leaves
`last_scraped_data` alone, skips the poller, and clears the completion flag. -/
theorem error_branch_behavior_witness :
    usernames_list "cristiano" ≠ [] ∧
    ((scrape_handler (fun _ => [9]) (fun _ _ => HttpResult.response 500 "boom") none
        "cristiano" 2 (SessionState.mk false (some [7]) false)).pollerInvoked = false ∧
      (scrape_handler (fun _ => [9]) (fun _ _ => HttpResult.response 500 "boom") none
        "cristiano" 2 (SessionState.mk false (some [7]) false)).state.last_scraped_data =
        (SessionState.mk false (some [7]) false).last_scraped_data ∧
      (scrape_handler (fun _ => [9]) (fun _ _ => HttpResult.response 500 "boom") none
        "cristiano" 2 (SessionState.mk false (some [7]) false)).state.scraping_completed =
        false ∧
      shows_data (scrape_handler (fun _ => [9])
        (fun _ _ => HttpResult.response 500 "boom") none "cristiano" 2
        (SessionState.mk false (some [7]) false)).state = false) :=
  ⟨by decide,
    error_branch_behavior (fun _ => [9]) (fun _ _ => HttpResult.response 500 "boom")
      none "cristiano" 2 (SessionState.mk false (some [7]) false)
      (by decide) (by decide) (by decide)⟩

end InstagramScraper
